import Mathlib

/-!
Verification of the conversation-sanitization pipeline and the
response/error normalization logic of a chat proxy worker
(`src/index.ts`).  The definitions below are shallow embeddings of the
TypeScript functions `buildModelInput` and `handleChatRequest`;
JavaScript values flowing through the untyped parts are modelled by an
inductive `Json` type, and JavaScript exceptions by `Except Unit`.
-/

namespace ChatBot

/-- A conversation entry (`ChatMessage`): a role string and a content
string.  Roles other than `"user"`, `"assistant"` and `"system"` are
representable, matching the untyped source. -/
structure Message where
  role : String
  content : String
deriving DecidableEq, Repr

/-- The caller-supplied set of blocked user contents
(`blockedUserContents`, membership tested by exact string equality). -/
abbrev BlockSet := List String

/-- Case-sensitive substring containment on character lists. -/
def containsSub (needle hay : List Char) : Bool :=
  hay.tails.any (fun t => needle.isPrefixOf t)

/-- ASCII case lowering, the effective canonicalization of the regex
`i` flag on the all-ASCII pattern `blocked by guardrails`. -/
def lowerChar (c : Char) : Char :=
  if 65 ≤ c.toNat ∧ c.toNat ≤ 90 then Char.ofNat (c.toNat + 32) else c

/-- The test `/blocked by guardrails/i.test(m.content)` guarded by
`m.role === "assistant"`: the classifier's guardrail-notice test
(case-insensitive substring match). -/
def isGuardrailNotice (m : Message) : Bool :=
  m.role == "assistant" &&
    containsSub "blocked by guardrails".data (m.content.data.map lowerChar)

/-- Whether the accumulator's last entry is user-role
(`cleaned.length && cleaned[cleaned.length - 1].role === "user"`). -/
def lastIsUser (acc : List Message) : Bool :=
  match acc.getLast? with
  | some m => m.role == "user"
  | none => false

/-- The sanitizing loop of `buildModelInput` (lines 51-77): `acc` is the
`cleaned` accumulator, push is append and `cleaned.pop()` is
`dropLast`. -/
def sanitizeAux (blocked : BlockSet) (acc : List Message) :
    List Message → List Message
  | [] => acc
  | m :: rest =>
    if m.role == "system" then
      sanitizeAux blocked acc rest
    else if m.role == "user" && blocked.contains m.content then
      sanitizeAux blocked acc rest
    else if isGuardrailNotice m then
      if lastIsUser acc then sanitizeAux blocked acc.dropLast rest
      else sanitizeAux blocked acc rest
    else
      sanitizeAux blocked (acc ++ [m]) rest

/-- The History Sanitizer: the `cleaned` list produced from the raw
messages and the block set. -/
def sanitize (blocked : BlockSet) (raw : List Message) : List Message :=
  sanitizeAux blocked [] raw

/-- The Context Windower (lines 80-81):
`cleaned.length > 16 ? cleaned.slice(cleaned.length - 16) : cleaned`. -/
def window (cleaned : List Message) : List Message :=
  if 16 < cleaned.length then cleaned.drop (cleaned.length - 16) else cleaned

/-- The per-entry rendering of the conversational string (lines 88-95). -/
def render (m : Message) : String :=
  if m.role == "user" then "User: " ++ m.content
  else if m.role == "assistant" then "Assistant: " ++ m.content
  else ""

/-- JavaScript `Array.prototype.join("\n\n")`. -/
def joinSep : List String → String
  | [] => ""
  | [s] => s
  | s :: rest => s ++ "\n\n" ++ joinSep rest

/-- Lines 87-97: map `render`, `filter(Boolean)` (a string is truthy
exactly when it is non-empty), join with a double newline. -/
def conversationText (w : List Message) : String :=
  joinSep ((w.map render).filter (fun s => s != ""))

/-- The Prompt Formatter (lines 84-99): a single user-role entry is
returned verbatim, otherwise the joined transcript. -/
def formatInput (w : List Message) : String :=
  match w with
  | [m] => if m.role == "user" then m.content else conversationText [m]
  | _ => conversationText w

def SYSTEM_PROMPT : String :=
  "You are a helpful, friendly assistant. Provide concise and accurate responses."

def SAFETY_SHIM : String :=
  "If a user asks for illegal, violent, or harmful instructions, refuse briefly and suggest safer, educational alternatives."

/-- The function `buildModelInput` (lines 46-100): instructions plus the formatted
windowed sanitized history. -/
def buildModelInput (raw : List Message) (blocked : BlockSet) :
    String × String :=
  (SYSTEM_PROMPT ++ "\n\nSafety: " ++ SAFETY_SHIM,
   formatInput (window (sanitize blocked raw)))

/-! ### A model of JavaScript values

The model reply (`aiResponse`) and the JSON values embedded in error
messages are untyped in the source; `Json` models them.  A number is
`num (some k)` when its value is exactly the integer `k` and `num none`
otherwise (only strict equality against the integer literals 2016/2017
is ever tested, so non-integral numbers need no finer distinction).
Missing properties (`undefined`) are conflated with `null`: the code
never distinguishes them (both are falsy, and property access on either
throws). -/

inductive Json where
  | null
  | bool (b : Bool)
  | num (n : Option Int)
  | str (s : String)
  | arr (elems : List Json)
  | obj (fields : List (String × Json))

/-- JavaScript truthiness. -/
def truthy : Json → Bool
  | .null => false
  | .bool b => b
  | .num (some k) => k != 0
  | .num none => true
  | .str s => s != ""
  | .arr _ => true
  | .obj _ => true

/-- The test `typeof v === "object"` (true for objects, arrays and `null`). -/
def isObjLike : Json → Bool
  | .obj _ => true
  | .arr _ => true
  | .null => true
  | _ => false

/-- Property lookup in an object literal; on duplicate keys the last
assignment wins, as in `JSON.parse`. -/
def jsonLookup : List (String × Json) → String → Option Json
  | [], _ => none
  | (k, v) :: rest, key =>
    match jsonLookup rest key with
    | some r => some r
    | none => if k == key then some v else none

/-- Total property access: `undefined` and missing keys are `.null`. -/
def getFieldPure : Json → String → Json
  | .obj fs, k => (jsonLookup fs k).getD .null
  | _, _ => .null

/-- Property access as evaluated by the engine: it throws on `null`
(and `undefined`). -/
def getField (j : Json) (k : String) : Except Unit Json :=
  match j with
  | .null => .error ()
  | _ => .ok (getFieldPure j k)

/-! ### The embedded-JSON parser (`JSON.parse`)

A fuel-indexed recursive-descent parser for the JSON grammar. -/

def isWsChar (c : Char) : Bool :=
  c == ' ' || c == '\t' || c == '\n' || c == '\r'

def skipWs (s : List Char) : List Char := s.dropWhile isWsChar

def hexVal (c : Char) : Option Nat :=
  if 48 ≤ c.toNat ∧ c.toNat ≤ 57 then some (c.toNat - 48)
  else if 97 ≤ c.toNat ∧ c.toNat ≤ 102 then some (c.toNat - 87)
  else if 65 ≤ c.toNat ∧ c.toNat ≤ 70 then some (c.toNat - 55)
  else none

def escChar (e : Char) : Option Char :=
  if e == '"' then some '"'
  else if e == '\\' then some '\\'
  else if e == '/' then some '/'
  else if e == 'b' then some '\x08'
  else if e == 'f' then some '\x0c'
  else if e == 'n' then some '\n'
  else if e == 'r' then some '\r'
  else if e == 't' then some '\t'
  else none

/-- Parse the remainder of a JSON string literal (after the opening
quote): content characters and the input following the closing quote. -/
def parseStringRest : List Char → Option (List Char × List Char)
  | [] => none
  | '"' :: rest => some ([], rest)
  | '\\' :: e :: rest2 =>
    if e == 'u' then
      match rest2 with
      | h1 :: h2 :: h3 :: h4 :: rest3 =>
        match hexVal h1, hexVal h2, hexVal h3, hexVal h4 with
        | some a, some b, some c, some d =>
          (parseStringRest rest3).map
            (fun p => (Char.ofNat (((a * 16 + b) * 16 + c) * 16 + d) :: p.1, p.2))
        | _, _, _, _ => none
      | _ => none
    else
      match escChar e with
      | some ch => (parseStringRest rest2).map (fun p => (ch :: p.1, p.2))
      | none => none
  | c :: rest =>
    if c.toNat < 32 then none
    else (parseStringRest rest).map (fun p => (c :: p.1, p.2))

def natOfDigits (l : List Char) : Nat :=
  l.foldl (fun a c => a * 10 + (c.toNat - 48)) 0

/-- Optional fraction part: its digits (empty when absent) and the
remainder; `none` on a dot without digits. -/
def parseFrac (s : List Char) : Option (List Char × List Char) :=
  match s with
  | '.' :: r =>
    let ds := r.takeWhile (fun c => c.isDigit)
    if ds.isEmpty then none else some (ds, r.dropWhile (fun c => c.isDigit))
  | _ => some ([], s)

/-- Optional exponent part: its sign and digits (empty when absent) and
the remainder; `none` on a malformed exponent. -/
def parseExp (s : List Char) : Option (Bool × List Char × List Char) :=
  match s with
  | c :: r =>
    if c == 'e' || c == 'E' then
      let (eneg, r2) : Bool × List Char :=
        match r with
        | '+' :: rr => (false, rr)
        | '-' :: rr => (true, rr)
        | _ => (false, r)
      let ds := r2.takeWhile (fun ch => ch.isDigit)
      if ds.isEmpty then none
      else some (eneg, ds, r2.dropWhile (fun ch => ch.isDigit))
    else some (false, [], s)
  | [] => some (false, [], [])

/-- The integer value of a parsed JSON number, `none` when the value is
not integral. -/
def numValue (neg : Bool) (ip fp : List Char) (eneg : Bool) (ep : List Char) :
    Option Int :=
  let m : Nat := natOfDigits (ip ++ fp)
  let e : Int :=
    (if eneg then -(natOfDigits ep : Int) else (natOfDigits ep : Int)) - fp.length
  let sign : Int := if neg then -1 else 1
  if 0 ≤ e then some (sign * m * 10 ^ e.toNat)
  else
    let d := (-e).toNat
    if m % 10 ^ d == 0 then some (sign * (m / 10 ^ d)) else none

def parseNumber (s : List Char) : Option (Json × List Char) :=
  let (neg, s1) : Bool × List Char :=
    match s with
    | '-' :: r => (true, r)
    | _ => (false, s)
  let ip := s1.takeWhile (fun c => c.isDigit)
  let s2 := s1.dropWhile (fun c => c.isDigit)
  if ip.isEmpty then none
  else if 1 < ip.length && ip.headD '0' == '0' then none
  else
    match parseFrac s2 with
    | none => none
    | some (fp, s3) =>
      match parseExp s3 with
      | none => none
      | some (eneg, ep, s4) => some (.num (numValue neg ip fp eneg ep), s4)

mutual

def parseVal : Nat → List Char → Option (Json × List Char)
  | 0, _ => none
  | Nat.succ fuel, s =>
    match skipWs s with
    | [] => none
    | '\x7b' :: r => parseObjBody fuel r
    | '[' :: r => parseArrBody fuel r
    | '"' :: r => (parseStringRest r).map (fun p => (.str ⟨p.1⟩, p.2))
    | 't' :: r => if r.take 3 == ['r', 'u', 'e'] then some (.bool true, r.drop 3) else none
    | 'f' :: r => if r.take 4 == ['a', 'l', 's', 'e'] then some (.bool false, r.drop 4) else none
    | 'n' :: r => if r.take 3 == ['u', 'l', 'l'] then some (.null, r.drop 3) else none
    | c :: r => if c == '-' || c.isDigit then parseNumber (c :: r) else none

def parseObjBody : Nat → List Char → Option (Json × List Char)
  | 0, _ => none
  | Nat.succ fuel, s =>
    match skipWs s with
    | '\x7d' :: r => some (.obj [], r)
    | _ => parseMembers fuel (skipWs s) []

def parseMembers : Nat → List Char → List (String × Json) → Option (Json × List Char)
  | 0, _, _ => none
  | Nat.succ fuel, s, acc =>
    match skipWs s with
    | '"' :: r =>
      match parseStringRest r with
      | none => none
      | some (kChars, r2) =>
        match skipWs r2 with
        | ':' :: r3 =>
          match parseVal fuel r3 with
          | none => none
          | some (v, r4) =>
            match skipWs r4 with
            | ',' :: r5 => parseMembers fuel r5 (acc ++ [(⟨kChars⟩, v)])
            | '\x7d' :: r5 => some (.obj (acc ++ [(⟨kChars⟩, v)]), r5)
            | _ => none
        | _ => none
    | _ => none

def parseArrBody : Nat → List Char → Option (Json × List Char)
  | 0, _ => none
  | Nat.succ fuel, s =>
    match skipWs s with
    | ']' :: r => some (.arr [], r)
    | _ => parseElems fuel (skipWs s) []

def parseElems : Nat → List Char → List Json → Option (Json × List Char)
  | 0, _, _ => none
  | Nat.succ fuel, s, acc =>
    match parseVal fuel s with
    | none => none
    | some (v, r) =>
      match skipWs r with
      | ',' :: r2 => parseElems fuel r2 (acc ++ [v])
      | ']' :: r2 => some (.arr (acc ++ [v]), r2)
      | _ => none

end

/-- Model of `JSON.parse`: a full value followed only by whitespace. -/
def parseJson (s : String) : Option Json :=
  match parseVal (2 * s.data.length + 2) s.data with
  | some (v, rem) => if (skipWs rem).isEmpty then some v else none
  | none => none

/-! ### The error-message brace match

`message.match(/\x7b.*\x7d/)`: the leftmost position admitting a match
is the first opening brace followed (with no line terminator between)
by some closing brace; greediness extends the match to the last such
closing brace. -/

def lineTerminator (c : Char) : Bool :=
  c == '\n' || c == '\r' || c == Char.ofNat 8232 || c == Char.ofNat 8233

/-- Index of the last closing brace in a list, if any. -/
def lastBrace : List Char → Option Nat
  | [] => none
  | c :: rest =>
    match lastBrace rest with
    | some i => some (i + 1)
    | none => if c == '\x7d' then some 0 else none

def braceSearch : List Char → Option (List Char)
  | [] => none
  | c :: rest =>
    if c == '\x7b' then
      let seg := rest.takeWhile (fun ch => !lineTerminator ch)
      match lastBrace seg with
      | some i => some ('\x7b' :: seg.take (i + 1))
      | none => braceSearch rest
    else braceSearch rest

def jsBraceMatch (s : String) : Option String :=
  (braceSearch s.data).map (fun l => ⟨l⟩)

/-! ### The Error Normalizer (`handleChatRequest`, catch block) -/

/-- Lines 211-223: `gatewayError` — brace-match the failure's message,
`JSON.parse` the match, and take `parsed.error[0]` when `parsed.error`
is an array; every failure along the way leaves it `null`.  The caught
failure is modelled by its (optional) string `message`. -/
def gatewayErrorOf (message : Option String) : Option Json :=
  match message with
  | none => none
  | some msg =>
    match jsBraceMatch msg with
    | none => none
    | some frag =>
      match parseJson frag with
      | none => none
      | some parsed =>
        match parsed with
        | .obj fs =>
          match jsonLookup fs "error" with
          | some (.arr es) => es.head?
          | _ => none
        | _ => none

def AI_GATEWAY_ID : String := "gpt-oss-gateway"

/-- The three JSON response bodies the handler can produce. -/
inductive RespBody where
  | chatOk (response : Json)
  | blockErr (error : String) (errType : String) (details : String)
      (usingGateway : Bool)
  | genericErr (error : String)

structure HttpResponse where
  status : Nat
  body : RespBody

def promptBlockedResponse : HttpResponse :=
  ⟨400, .blockErr "Prompt Blocked by Security Policy" "prompt_blocked"
    (if AI_GATEWAY_ID != "" then
      "Your message was blocked by your organization's AI Gateway security policy. This may be due to content that violates safety guidelines including: hate speech, violence, self-harm, explicit content, or other harmful material."
    else "Your message was blocked due to security policy.")
    (AI_GATEWAY_ID != "")⟩

def responseBlockedResponse : HttpResponse :=
  ⟨400, .blockErr "Response Blocked by Security Policy" "response_blocked"
    (if AI_GATEWAY_ID != "" then
      "The AI's response was blocked by your organization's AI Gateway security policy. The model attempted to generate content that violates safety guidelines. Please rephrase your question or try a different topic."
    else "The AI's response was blocked due to security policy.")
    (AI_GATEWAY_ID != "")⟩

def genericFailureResponse : HttpResponse :=
  ⟨500, .genericErr "Failed to process request"⟩

/-- The test `gatewayError && gatewayError.code === c`: truthy, and an object
whose `code` property is exactly the number `c`. -/
def codeMatches (g : Option Json) (c : Int) : Bool :=
  match g with
  | none => false
  | some v =>
    truthy v &&
      (match v with
       | .obj fs =>
         (match jsonLookup fs "code" with
          | some (.num (some k)) => k == c
          | _ => false)
       | _ => false)

/-- The catch block of `handleChatRequest` (lines 204-262). -/
def handleCatch (message : Option String) : HttpResponse :=
  let gatewayError := gatewayErrorOf message
  if codeMatches gatewayError 2016 then promptBlockedResponse
  else if codeMatches gatewayError 2017 then responseBlockedResponse
  else genericFailureResponse

/-- The integral gateway error code reachable through the extraction
chain, when there is one. -/
def extractedGatewayCode (message : Option String) : Option Int :=
  match gatewayErrorOf message with
  | some (.obj fs) =>
    match jsonLookup fs "code" with
    | some (.num (some k)) => some k
    | _ => none
  | _ => none

/-! ### The Response Extractor (`handleChatRequest`, lines 156-191)

`.find` evaluates `item.type` on each element until a hit, so a `null`
array element makes the extractor throw; `Except Unit` models that. -/

/-- The test `item.type === tag`, throwing on `null`/`undefined` elements. -/
def typeTagIs (tag : String) (item : Json) : Except Unit Bool :=
  match item with
  | .null => .error ()
  | .obj fs =>
    .ok (match jsonLookup fs "type" with
         | some (.str s) => s == tag
         | _ => false)
  | _ => .ok false

/-- Model of `array.find(item => item.type === tag)`. -/
def jsFindTag (tag : String) : List Json → Except Unit (Option Json)
  | [] => .ok none
  | item :: rest =>
    match typeTagIs tag item with
    | .error e => .error e
    | .ok true => .ok (some item)
    | .ok false => jsFindTag tag rest

/-- The shape-(2) stage (lines 165-174): the value of `responseText`
after the GPT-OSS parse attempt, `""` when nothing was assigned. -/
def shape2 (resp : Json) : Except Unit Json :=
  match getField resp "output" with
  | .error e => .error e
  | .ok output =>
    match output with
    | .arr items =>
      match jsFindTag "message" items with
      | .error e => .error e
      | .ok none => .ok (.str "")
      | .ok (some messageOutput) =>
        if truthy messageOutput then
          match getField messageOutput "content" with
          | .error e => .error e
          | .ok content =>
            if truthy content then
              match content with
              | .arr citems =>
                match jsFindTag "output_text" citems with
                | .error e => .error e
                | .ok none => .ok (.str "")
                | .ok (some textContent) =>
                  if truthy textContent then
                    match getField textContent "text" with
                    | .error e => .error e
                    | .ok text => if truthy text then .ok text else .ok (.str "")
                  else .ok (.str "")
              | _ => .ok (.str "")
            else .ok (.str "")
        else .ok (.str "")
    | _ => .ok (.str "")

/-- Indexing `choices[0]`: array indexing, object property `"0"`, or the first
character of a string. -/
def jsIndex0 : Json → Json
  | .arr (x :: _) => x
  | .arr [] => .null
  | .obj fs => (jsonLookup fs "0").getD .null
  | .str s =>
    match s.data with
    | [] => .null
    | c :: _ => .str ⟨[c]⟩
  | _ => .null

/-- The chain `choices[0]?.message?.content` (optional chaining never throws). -/
def choicesContent (ch : Json) : Json :=
  match jsIndex0 ch with
  | .null => .null
  | c0 =>
    match getFieldPure c0 "message" with
    | .null => .null
    | m => getFieldPure m "content"

/-- Lines 157-191: the extracted `responseText`. -/
def extractValue (resp : Json) : Except Unit Json :=
  match resp with
  | .str s => .ok (.str s)
  | _ =>
    if truthy resp && isObjLike resp then
      match shape2 resp with
      | .error e => .error e
      | .ok rt =>
        if truthy rt then .ok rt
        else
          let r := getFieldPure resp "response"
          if truthy r then .ok r
          else
            let c := getFieldPure resp "content"
            if truthy c then .ok c
            else
              let ch := getFieldPure resp "choices"
              let cc := choicesContent ch
              if truthy ch && truthy cc then .ok cc
              else
                let res := getFieldPure resp "result"
                let rr := getFieldPure res "response"
                if truthy res && truthy rr then .ok rr
                else .ok (.str "Error: Could not parse AI response")
    else .ok (.str "")

/-- The success path of `handleChatRequest`: HTTP 200 with
`\x7b response, success: true \x7d`; an extraction throw lands in the
catch block, whose TypeError message embeds no JSON braces, so it
yields the generic 500. -/
def handleSuccess (resp : Json) : HttpResponse :=
  match extractValue resp with
  | .ok v => ⟨200, .chatOk v⟩
  | .error _ => genericFailureResponse

/-! ### Lemmas about the sanitizer -/

/-- Every element of the sanitizer's output comes from the initial
accumulator or from the remaining input. -/
theorem sanitizeAux_subset (blocked : BlockSet) :
    ∀ (l acc : List Message), ∀ x ∈ sanitizeAux blocked acc l, x ∈ acc ∨ x ∈ l := by
  intro l
  induction l with
  | nil => intro acc x hx; exact Or.inl hx
  | cons m rest ih =>
    intro acc x hx
    rw [sanitizeAux] at hx
    split at hx
    · rcases ih acc x hx with h | h
      · exact Or.inl h
      · exact Or.inr (List.mem_cons_of_mem _ h)
    · split at hx
      · rcases ih acc x hx with h | h
        · exact Or.inl h
        · exact Or.inr (List.mem_cons_of_mem _ h)
      · split at hx
        · split at hx
          · rcases ih acc.dropLast x hx with h | h
            · exact Or.inl (List.mem_of_mem_dropLast h)
            · exact Or.inr (List.mem_cons_of_mem _ h)
          · rcases ih acc x hx with h | h
            · exact Or.inl h
            · exact Or.inr (List.mem_cons_of_mem _ h)
        · rcases ih (acc ++ [m]) x hx with h | h
          · rcases List.mem_append.1 h with h' | h'
            · exact Or.inl h'
            · exact Or.inr (List.mem_cons.2 (Or.inl (List.mem_singleton.1 h')))
          · exact Or.inr (List.mem_cons_of_mem _ h)

/-- Elements the sanitizer ever appends are neither system-role nor
guardrail notices, so the invariant propagates from the accumulator. -/
theorem sanitizeAux_invariant (blocked : BlockSet) :
    ∀ (l acc : List Message),
      (∀ x ∈ acc, x.role ≠ "system" ∧ isGuardrailNotice x = false) →
      ∀ x ∈ sanitizeAux blocked acc l, x.role ≠ "system" ∧ isGuardrailNotice x = false := by
  intro l
  induction l with
  | nil => intro acc hacc x hx; exact hacc x hx
  | cons m rest ih =>
    intro acc hacc x hx
    rw [sanitizeAux] at hx
    split at hx
    · exact ih acc hacc x hx
    · split at hx
      · exact ih acc hacc x hx
      · split at hx
        · split at hx
          · exact ih acc.dropLast
              (fun y hy => hacc y (List.mem_of_mem_dropLast hy)) x hx
          · exact ih acc hacc x hx
        · rename_i hsys _ hnotice
          refine ih (acc ++ [m]) ?_ x hx
          intro y hy
          rcases List.mem_append.1 hy with h' | h'
          · exact hacc y h'
          · rw [List.mem_singleton.1 h']
            constructor
            · intro hr
              exact hsys (by simp [hr])
            · cases hgn : isGuardrailNotice m
              · rfl
              · exact absurd hgn hnotice

/-- On input that contains no system messages and no guardrail notices,
the sanitizer with an empty block set keeps everything. -/
theorem sanitizeAux_keep_all :
    ∀ (l acc : List Message),
      (∀ x ∈ l, x.role ≠ "system" ∧ isGuardrailNotice x = false) →
      sanitizeAux [] acc l = acc ++ l := by
  intro l
  induction l with
  | nil => intro acc _; simp [sanitizeAux]
  | cons m rest ih =>
    intro acc hl
    obtain ⟨hsys, hnotice⟩ := hl m (List.mem_cons_self m rest)
    rw [sanitizeAux]
    rw [if_neg (by simp [hsys]), if_neg (by simp), if_neg (by simp [hnotice])]
    rw [ih (acc ++ [m]) (fun x hx => hl x (List.mem_cons_of_mem _ hx))]
    simp

/-! ### Lemmas about the windower -/

theorem window_length_le (l : List Message) : (window l).length ≤ 16 := by
  rw [window]
  split
  · simp only [List.length_drop]; omega
  · omega

theorem window_subset (l : List Message) : window l ⊆ l := by
  rw [window]
  split
  · exact List.drop_subset _ _
  · exact fun _ h => h

theorem window_eq_of_le {l : List Message} (h : l.length ≤ 16) : window l = l := by
  rw [window, if_neg (by omega)]

/-! ### Lemmas about the formatter -/

theorem append_ne_empty_of_left_ne_empty (s t : String) (h : s ≠ "") :
    s ++ t ≠ "" := by
  intro heq
  apply h
  obtain ⟨sd⟩ := s
  obtain ⟨td⟩ := t
  have hd := congrArg String.data heq
  rw [String.data_append] at hd
  have h1 : sd = [] := (List.append_eq_nil.1 hd).1
  rw [h1]

theorem render_eq_empty_iff (m : Message) :
    render m = "" ↔ (m.role ≠ "user" ∧ m.role ≠ "assistant") := by
  rw [render]
  split
  · rename_i h
    simp only [beq_iff_eq] at h
    constructor
    · intro he
      exact absurd he (append_ne_empty_of_left_ne_empty _ _ (by decide))
    · intro hr; exact absurd h hr.1
  · split
    · rename_i h1 h2
      simp only [beq_iff_eq] at h1 h2
      constructor
      · intro he
        exact absurd he (append_ne_empty_of_left_ne_empty _ _ (by decide))
      · intro hr; exact absurd h2 hr.2
    · rename_i h1 h2
      simp only [beq_iff_eq] at h1 h2
      exact ⟨fun _ => ⟨h1, h2⟩, fun _ => rfl⟩

theorem joinSep_eq_empty_of_nonempty_elements :
    ∀ (l : List String), (∀ s ∈ l, s ≠ "") → (joinSep l = "" ↔ l = []) := by
  intro l hl
  match l with
  | [] => simp [joinSep]
  | [s] =>
    simp only [joinSep]
    constructor
    · intro h; exact absurd h (hl s (List.mem_singleton_self s))
    · intro h; cases h
  | s :: t :: rest =>
    simp only [joinSep]
    constructor
    · intro h
      exact absurd h
        (append_ne_empty_of_left_ne_empty _ _
          (append_ne_empty_of_left_ne_empty _ _ (hl s (List.mem_cons_self _ _))))
    · intro h; cases h

theorem conversationText_eq_empty_iff (w : List Message) :
    conversationText w = "" ↔ ∀ m ∈ w, m.role ≠ "user" ∧ m.role ≠ "assistant" := by
  rw [conversationText]
  rw [joinSep_eq_empty_of_nonempty_elements _ (by
    intro s hs
    simpa using List.of_mem_filter hs)]
  rw [List.filter_eq_nil_iff]
  constructor
  · intro h m hm
    have h2 := h (render m) (List.mem_map_of_mem render hm)
    rw [← render_eq_empty_iff]
    by_contra hne
    exact h2 (by simpa using hne)
  · intro h s hs
    rcases List.mem_map.1 hs with ⟨m, hm, rfl⟩
    have h2 := (render_eq_empty_iff m).2 (h m hm)
    simp [h2]

/-! ### Claim theorems -/

/-- C1 (counterexample): the claim reads "immediately preceded" over the
input conversation.  In `[user A, system S, guardrail-notice]` the
notice's immediate input predecessor is the system entry (not
user-role), so per the claim only the notice should be dropped by the
guardrail rule and `user A` should survive — yet the sanitizer's output
is empty: the code pops the last *accumulated* entry (`user A`, the
system entry having been skipped). -/
theorem sanitize_guardrail_input_adjacency_cex :
    isGuardrailNotice ⟨"assistant", "blocked by guardrails"⟩ = true ∧
    (⟨"system", "S"⟩ : Message).role ≠ "user" ∧
    sanitize []
      [⟨"user", "A"⟩, ⟨"system", "S"⟩, ⟨"assistant", "blocked by guardrails"⟩] = [] := by
  decide

/-- C1 (amended): when the sanitizer meets a guardrail notice, it drops
the notice and additionally removes the last entry of the *accumulated
sanitized prefix* exactly when that entry is user-role; moreover
every element of the result was already in the accumulator or in the
remaining input (so the notice itself never enters the output). -/
theorem sanitize_guardrail_step (blocked : BlockSet) (acc : List Message)
    (m : Message) (rest : List Message) (h : isGuardrailNotice m = true) :
    (sanitizeAux blocked acc (m :: rest) =
      if lastIsUser acc then sanitizeAux blocked acc.dropLast rest
      else sanitizeAux blocked acc rest) ∧
    (∀ x ∈ sanitizeAux blocked acc (m :: rest), x ∈ acc ∨ x ∈ rest) := by
  have hrole : m.role = "assistant" := by
    have h' := h
    simp only [isGuardrailNotice, Bool.and_eq_true, beq_iff_eq] at h'
    exact h'.1
  have hstep : sanitizeAux blocked acc (m :: rest) =
      if lastIsUser acc then sanitizeAux blocked acc.dropLast rest
      else sanitizeAux blocked acc rest := by
    rw [sanitizeAux, if_neg (by simp [hrole]), if_neg (by simp [hrole]), if_pos h]
  refine ⟨hstep, ?_⟩
  intro x hx
  rw [hstep] at hx
  split at hx
  · rcases sanitizeAux_subset blocked rest acc.dropLast x hx with h' | h'
    · exact Or.inl (List.mem_of_mem_dropLast h')
    · exact Or.inr h'
  · exact sanitizeAux_subset blocked rest acc x hx

/-- C1 (witness): applying the amended step rule with accumulator
`[user A]` and a concrete guardrail notice; the result is empty. -/
theorem sanitize_guardrail_step_witness :
    sanitizeAux [] [⟨"user", "A"⟩] [⟨"assistant", "blocked by guardrails"⟩] =
      (if lastIsUser [⟨"user", "A"⟩] then
        sanitizeAux [] (List.dropLast [⟨"user", "A"⟩]) []
      else sanitizeAux [] [⟨"user", "A"⟩] []) ∧
    sanitizeAux [] [⟨"user", "A"⟩] [⟨"assistant", "blocked by guardrails"⟩] = [] :=
  ⟨(sanitize_guardrail_step [] [⟨"user", "A"⟩] ⟨"assistant", "blocked by guardrails"⟩ []
      (by decide)).1,
   by decide⟩

/-- C3: the windower is the identity on histories of length at most 16,
and keeps exactly the trailing 16 entries, in order, otherwise. -/
theorem window_spec (l : List Message) :
    (l.length ≤ 16 → window l = l) ∧
    (16 < l.length → window l = (l.reverse.take 16).reverse) := by
  constructor
  · exact fun h => window_eq_of_le h
  · intro h
    rw [window, if_pos h]
    have : l.drop (l.length - 16) = l.rtake 16 := rfl
    rw [this, List.rtake_eq_reverse_take_reverse]

/-- C3 (witness): the windower at a length-3 and at a length-17 history. -/
theorem window_spec_witness :
    window (List.replicate 3 (⟨"user", "x"⟩ : Message)) =
      List.replicate 3 ⟨"user", "x"⟩ ∧
    window (List.replicate 17 (⟨"user", "x"⟩ : Message)) =
      ((List.replicate 17 (⟨"user", "x"⟩ : Message)).reverse.take 16).reverse :=
  ⟨(window_spec _).1 (by decide), (window_spec _).2 (by decide)⟩

/-- The formatter as the specification words it: user entries rendered
with a `User:` prefix, assistant entries with an `Assistant:` prefix,
entries of any other role dropped, joined by a double newline; a lone
user entry is passed through verbatim. -/
def renderOpt (m : Message) : Option String :=
  if m.role == "user" then some ("User: " ++ m.content)
  else if m.role == "assistant" then some ("Assistant: " ++ m.content)
  else none

/-- Spec-side restatement of the Prompt Formatter (§4.4), to be compared
with `formatInput`. -/
def formatInputSpec (w : List Message) : String :=
  match w with
  | [m] => if m.role == "user" then m.content else joinSep (w.filterMap renderOpt)
  | _ => joinSep (w.filterMap renderOpt)

theorem filter_render_eq_filterMap (w : List Message) :
    (w.map render).filter (fun s => s != "") = w.filterMap renderOpt := by
  induction w with
  | nil => rfl
  | cons m rest ih =>
    cases hu : (m.role == "user") with
    | true =>
      have hne : (("User: " ++ m.content) != "") = true := by
        simpa using append_ne_empty_of_left_ne_empty "User: " m.content (by decide)
      simp [render, renderOpt, hu, hne, ih]
    | false =>
      cases ha : (m.role == "assistant") with
      | true =>
        have hne : (("Assistant: " ++ m.content) != "") = true := by
          simpa using
            append_ne_empty_of_left_ne_empty "Assistant: " m.content (by decide)
        simp [render, renderOpt, hu, ha, hne, ih]
      | false =>
        simp [render, renderOpt, hu, ha, ih]

/-- C4: the Prompt Formatter agrees with its specification restatement
on every windowed history, and the two-turn example formats to
`"User: Hi\n\nAssistant: Hello"`. -/
theorem formatInput_spec :
    (∀ w, formatInput w = formatInputSpec w) ∧
    formatInput [⟨"user", "Hi"⟩, ⟨"assistant", "Hello"⟩] =
      "User: Hi\n\nAssistant: Hello" := by
  constructor
  · intro w
    match w with
    | [] => rfl
    | [m] =>
      simp only [formatInput, formatInputSpec]
      split
      · rfl
      · simp only [conversationText, filter_render_eq_filterMap]
    | a :: b :: rest =>
      simp only [formatInput, formatInputSpec]
      simp only [conversationText, filter_render_eq_filterMap]
  · decide

/-- C5: the sanitized history never contains a system-role message. -/
theorem sanitize_no_system (blocked : BlockSet) (raw : List Message) :
    ∀ m ∈ sanitize blocked raw, m.role ≠ "system" := by
  intro m hm
  exact (sanitizeAux_invariant blocked raw [] (by simp) m hm).1

/-- C5 (witness): the surviving entry of a small conversation with a
system entry is not system-role. -/
theorem sanitize_no_system_witness :
    (⟨"user", "A"⟩ : Message).role ≠ "system" :=
  sanitize_no_system [] [⟨"system", "S"⟩, ⟨"user", "A"⟩] ⟨"user", "A"⟩ (by decide)

/-- C7 (counterexample): a windowed history consisting of one user entry
with empty content is non-empty, yet the formatted input is the empty
string (the single-user branch returns the content verbatim). -/
theorem formatInput_empty_on_nonempty_cex :
    (buildModelInput [⟨"user", ""⟩] []).2 = "" ∧
    window (sanitize [] [⟨"user", ""⟩]) = [⟨"user", ""⟩] ∧
    ([⟨"user", ""⟩] : List Message) ≠ [] := by
  decide

/-- C7 (amended): the formatted input is empty exactly when the windowed
history is empty, is a single user entry with empty content, or
contains no user- or assistant-role entry at all. -/
theorem formatInput_empty_iff (w : List Message) :
    formatInput w = "" ↔
      (w = [] ∨
       (∃ m, w = [m] ∧
         ((m.role = "user" ∧ m.content = "") ∨
          (m.role ≠ "user" ∧ m.role ≠ "assistant"))) ∨
       (1 < w.length ∧ ∀ m ∈ w, m.role ≠ "user" ∧ m.role ≠ "assistant")) := by
  match w with
  | [] =>
    simp [formatInput, conversationText, joinSep]
  | [m] =>
    rw [formatInput]
    split
    · rename_i h
      rw [beq_iff_eq] at h
      constructor
      · intro he
        exact Or.inr (Or.inl ⟨m, rfl, Or.inl ⟨h, he⟩⟩)
      · intro hd
        rcases hd with h' | h' | h'
        · cases h'
        · rcases h' with ⟨m', hm', hcase⟩
          have hmm : m' = m := by
            injection hm' with h1 _; exact h1.symm
          subst hmm
          rcases hcase with ⟨_, hc⟩ | ⟨hu, _⟩
          · exact hc
          · exact absurd h hu
        · simp at h'
    · rename_i h
      rw [beq_iff_eq] at h
      rw [conversationText_eq_empty_iff]
      constructor
      · intro hall
        exact Or.inr (Or.inl ⟨m, rfl, Or.inr (hall m (List.mem_singleton_self m))⟩)
      · intro hd
        rcases hd with h' | h' | h'
        · cases h'
        · rcases h' with ⟨m', hm', hcase⟩
          have hmm : m' = m := by
            injection hm' with h1 _; exact h1.symm
          subst hmm
          rcases hcase with ⟨hu, _⟩ | hother
          · exact absurd hu h
          · intro x hx
            rw [List.mem_singleton.1 hx]
            exact hother
        · simp at h'
  | a :: b :: rest =>
    show conversationText (a :: b :: rest) = "" ↔ _
    rw [conversationText_eq_empty_iff]
    constructor
    · intro hall
      refine Or.inr (Or.inr ⟨by simp only [List.length_cons]; omega, hall⟩)
    · intro hd
      rcases hd with h' | h' | h'
      · cases h'
      · rcases h' with ⟨m', hm', _⟩
        injection hm' with _ h2
        cases h2
      · exact h'.2

/-- C9: re-running the sanitizer and windower on their own output, with
an empty block set, returns that output unchanged. -/
theorem sanitize_window_idempotent (blocked : BlockSet) (raw : List Message) :
    window (sanitize [] (window (sanitize blocked raw))) =
      window (sanitize blocked raw) := by
  have hq : ∀ x ∈ window (sanitize blocked raw),
      x.role ≠ "system" ∧ isGuardrailNotice x = false := by
    intro x hx
    exact sanitizeAux_invariant blocked raw [] (by simp) x
      (window_subset _ hx)
  have hsan : sanitize [] (window (sanitize blocked raw)) =
      window (sanitize blocked raw) := by
    rw [sanitize, sanitizeAux_keep_all _ _ hq]
    rfl
  rw [hsan]
  exact window_eq_of_le (window_length_le _)

/-! ### Claim theorems about the error normalizer and the extractor -/

/-- The message of the C2 counterexample: it contains the exact
blocked-prompt JSON fragment, followed by a stray closing brace. -/
def c2frag : String := "\x7b\"error\":[\x7b\"code\":2016,\"message\":\"x\"\x7d]\x7d"

def c2msg : String := "\x7b\"error\":[\x7b\"code\":2016,\"message\":\"x\"\x7d]\x7d \x7d"

/-- C2 (counterexample): a failure message that contains the embedded
code-2016 JSON fragment but answers with the generic 500, not the 400
blocked-prompt response: the greedy brace match runs to the *last*
closing brace of the message, and the extended span no longer parses. -/
theorem gateway_error_fragment_not_sufficient_cex :
    containsSub c2frag.data c2msg.data = true ∧
    (handleCatch (some c2msg)).status = 500 := by
  constructor
  · decide
  · decide

/-- C2 (amended): the catch handler dispatches on the gateway error code
reachable through its extraction chain (greedy brace match, JSON parse,
`error[0]` of the result): an extracted code 2016 yields the 400
"Prompt Blocked by Security Policy" / `prompt_blocked` response, 2017
the 400 "Response Blocked by Security Policy" / `response_blocked`
response, and any other code — or any failure of the chain — the
generic 500 body; concretely, messages embedding well-delimited 2016 /
2017 fragments produce the 400 responses, and a brace-free message the
500. -/
theorem handleCatch_code_dispatch :
    (∀ message : Option String,
      handleCatch message =
        match extractedGatewayCode message with
        | some c =>
          if c = 2016 then promptBlockedResponse
          else if c = 2017 then responseBlockedResponse
          else genericFailureResponse
        | none => genericFailureResponse) ∧
    handleCatch (some "\x7b\"error\":[\x7b\"code\":2016,\"message\":\"x\"\x7d]\x7d")
      = promptBlockedResponse ∧
    handleCatch (some "\x7b\"error\":[\x7b\"code\":2017,\"message\":\"x\"\x7d]\x7d")
      = responseBlockedResponse ∧
    handleCatch (some "no braces here") = genericFailureResponse := by
  refine ⟨?_, ?_, ?_, ?_⟩
  · intro message
    unfold handleCatch extractedGatewayCode
    cases hge : gatewayErrorOf message with
    | none => simp [codeMatches]
    | some v =>
      cases v with
      | null => simp [codeMatches, truthy]
      | bool b => simp [codeMatches, truthy]
      | num n => simp [codeMatches, truthy]
      | str s => simp [codeMatches, truthy]
      | arr xs => simp [codeMatches, truthy]
      | obj fs =>
        cases hc : jsonLookup fs "code" with
        | none => simp [codeMatches, truthy, hc]
        | some cv =>
          cases cv with
          | num oi =>
            cases oi with
            | none => simp [codeMatches, truthy, hc]
            | some k =>
              simp only [codeMatches, truthy, hc, Bool.true_and, beq_iff_eq]
          | null => simp [codeMatches, truthy, hc]
          | bool b => simp [codeMatches, truthy, hc]
          | str s => simp [codeMatches, truthy, hc]
          | arr xs => simp [codeMatches, truthy, hc]
          | obj fs2 => simp [codeMatches, truthy, hc]
  · rfl
  · rfl
  · rfl

/-- The C6 counterexample reply: it matches shape (2) — an `output`
list with a `message` entry whose `content` list has an `output_text`
entry — but that entry's `text` is the empty string. -/
def c6text : Json := .obj [("type", .str "output_text"), ("text", .str "")]

def c6message : Json := .obj [("type", .str "message"), ("content", .arr [c6text])]

def c6reply : Json :=
  .obj [("output", .arr [c6message]), ("response", .str "R")]

/-- C6 (counterexample): a reply matching both shape (2) and shape (3):
the `output_text` entry exists (so shape (2) matches in the claim's
sense) but carries empty text, and the extractor chooses shape (3)'s
`"R"` rather than shape (2)'s `""`. -/
theorem extractor_empty_text_precedence_cex :
    jsFindTag "message" [c6message] = .ok (some c6message) ∧
    jsFindTag "output_text" [c6text] = .ok (some c6text) ∧
    getFieldPure c6text "text" = .str "" ∧
    getFieldPure c6reply "response" = .str "R" ∧
    extractValue c6reply = .ok (.str "R") ∧
    ("R" : String) ≠ "" :=
  ⟨rfl, rfl, rfl, rfl, rfl, by decide⟩

/-- C6 (amended): whenever the shape-(2) stage produces a truthy
(non-empty) text, the extractor returns exactly that text, whatever the
other fields (`response` included) hold. -/
theorem extractor_shape2_precedence (resp t : Json)
    (hobj : (truthy resp && isObjLike resp) = true)
    (h2 : shape2 resp = .ok t) (ht : truthy t = true) :
    extractValue resp = .ok t := by
  cases resp with
  | str s => simp [isObjLike] at hobj
  | null => simp [truthy] at hobj
  | bool b => simp [isObjLike] at hobj
  | num n => simp [isObjLike] at hobj
  | arr xs => simp [extractValue, hobj, h2, ht]
  | obj fs => simp [extractValue, hobj, h2, ht]

/-- C6 (witness): a reply carrying both a non-empty shape-(2) text and
a `response` field extracts the shape-(2) text. -/
theorem extractor_shape2_precedence_witness :
    extractValue
      (.obj [("output", .arr [.obj [("type", .str "message"),
         ("content", .arr [.obj [("type", .str "output_text"),
            ("text", .str "Hi")]])]]), ("response", .str "R")])
      = .ok (.str "Hi") :=
  extractor_shape2_precedence
    (.obj [("output", .arr [.obj [("type", .str "message"),
       ("content", .arr [.obj [("type", .str "output_text"),
          ("text", .str "Hi")]])]]), ("response", .str "R")])
    (.str "Hi") rfl rfl rfl

/-- C8 (counterexample): a `null` reply is matched by none of the
extraction shapes, yet the handler answers 200 with response text `""`,
not with the parse-failure fallback text. -/
theorem fallback_not_used_for_primitive_cex :
    handleSuccess .null = ⟨200, .chatOk (.str "")⟩ ∧
    ("" : String) ≠ "Error: Could not parse AI response" :=
  ⟨rfl, by decide⟩

/-- C8 (amended): for a successful reply that is a truthy object, when
every extraction stage yields a falsy value — the shape-(2) stage text,
the `response` and `content` fields, the `choices[0]?.message?.content`
chain and the guarded `result.response` — the handler emits the fixed
fallback text with HTTP 200 and success (non-object non-string replies
instead degrade to the empty string, see the counterexample). -/
theorem no_shape_fallback (resp t : Json)
    (hobj : (truthy resp && isObjLike resp) = true)
    (h2 : shape2 resp = .ok t) (ht : truthy t = false)
    (hr : truthy (getFieldPure resp "response") = false)
    (hc : truthy (getFieldPure resp "content") = false)
    (hch : (truthy (getFieldPure resp "choices") &&
            truthy (choicesContent (getFieldPure resp "choices"))) = false)
    (hres : (truthy (getFieldPure resp "result") &&
             truthy (getFieldPure (getFieldPure resp "result") "response")) = false) :
    handleSuccess resp = ⟨200, .chatOk (.str "Error: Could not parse AI response")⟩ := by
  cases resp with
  | str s => simp [isObjLike] at hobj
  | null => simp [truthy] at hobj
  | bool b => simp [isObjLike] at hobj
  | num n => simp [isObjLike] at hobj
  | arr xs =>
    simp [handleSuccess, extractValue, hobj, h2, ht, hr, hc, hch, hres]
  | obj fs =>
    simp [handleSuccess, extractValue, hobj, h2, ht, hr, hc, hch, hres]

/-- C8 (witness): the empty object matches no shape and produces the
fallback text with status 200. -/
theorem no_shape_fallback_witness :
    handleSuccess (.obj []) =
      ⟨200, .chatOk (.str "Error: Could not parse AI response")⟩ :=
  no_shape_fallback (.obj []) (.str "") rfl rfl rfl rfl rfl rfl rfl

/-- A reply that is neither a string nor an object in the JavaScript
sense of the extraction branches: `null`, a number, or a boolean. -/
def isPrimitiveNonString : Json → Bool
  | .null => true
  | .bool _ => true
  | .num _ => true
  | _ => false

/-- C10: for a reply that is neither a string nor a (truthy) object,
both extraction branches are skipped and the handler answers
HTTP 200 with `response` equal to the empty string. -/
theorem primitive_reply_empty_response (r : Json)
    (h : isPrimitiveNonString r = true) :
    handleSuccess r = ⟨200, .chatOk (.str "")⟩ := by
  cases r with
  | null => rfl
  | bool b => simp [handleSuccess, extractValue, truthy, isObjLike]
  | num n => simp [handleSuccess, extractValue, truthy, isObjLike]
  | str s => simp [isPrimitiveNonString] at h
  | arr xs => simp [isPrimitiveNonString] at h
  | obj fs => simp [isPrimitiveNonString] at h

/-- C10 (witness): the `null` reply yields 200 with empty response. -/
theorem primitive_reply_empty_response_witness :
    handleSuccess .null = ⟨200, .chatOk (.str "")⟩ :=
  primitive_reply_empty_response .null rfl

end ChatBot
